import Mathlib

/-!
# Verification of the AgentWarden Python SDK session core

A shallow embedding of the governed-action session protocol from
`sdks/python/agentwarden` (`session.py`, `exceptions.py`, `client.py`,
`decorators.py`), together with theorems settling the specification's
claims about it.

Modelling conventions:
* Python dicts of JSON-like values become association lists over `Jval`;
  `dict.get` becomes `dget`.
* Exceptions become `Except`: a raised exception is an `Except.error`.
* Wall-clock time is passed in explicitly (`now : Nat`, seconds).
* The network (`AgentWarden._post` for `/v1/events/evaluate`) is an
  explicit `transport` argument returning either a decoded response dict
  or a transport error.
* A caller-supplied unit of work (`execute=`) is a `Callable σ ε α`:
  a state transformer on an abstract world `σ` that may raise `ε` or
  return `α`, so "executed exactly once" is observable in the world.
-/

namespace AgentWarden

/-- JSON-like values as decoded by the SDK (Python objects from `resp.json()`
and parameters passed to `json.dumps`). `null` models Python `None`. -/
inductive Jval where
  | null
  | bool (b : Bool)
  | num (n : Int)
  | str (s : String)
  | arr (elems : List Jval)
  | obj (fields : List (String × Jval))

/-- A Python dict with string keys holding JSON-like values. -/
def Dict := List (String × Jval)

/-- `d.get(k)` returning `None` (here `none`) when the key is absent. -/
def dget (d : Dict) (k : String) : Option Jval :=
  (d.find? (fun kv => kv.1 == k)).map Prod.snd

/-- Python truthiness of a JSON-like value (`bool(v)`), used by the
`suggestions or []` normalization in `ActionDenied.__init__`. -/
def pyTruthy : Jval → Bool
  | Jval.null => false
  | Jval.bool b => b
  | Jval.num n => n != 0
  | Jval.str s => !s.isEmpty
  | Jval.arr elems => !elems.isEmpty
  | Jval.obj fields => !fields.isEmpty

/-- Lower-case hex digit, as emitted by Python's `json` escaper. -/
def hexDigitChar (n : Nat) : Char :=
  if n < 10 then Char.ofNat (48 + n) else Char.ofNat (87 + n % 16)

/-- Four-digit hex rendering for `\uXXXX` escapes. -/
def hex4 (n : Nat) : String :=
  String.mk [hexDigitChar (n / 4096 % 16), hexDigitChar (n / 256 % 16),
    hexDigitChar (n / 16 % 16), hexDigitChar (n % 16)]

/-- Escaping of a single character by `json.dumps` with its defaults
(`ensure_ascii=True`): the two-character escapes for quote, backslash and
the common control characters, `\uXXXX` (with surrogate pairs above the
BMP) for every other character outside printable ASCII. -/
def escapeJsonChar (c : Char) : String :=
  if c = Char.ofNat 34 then "\\\""
  else if c = Char.ofNat 92 then "\\\\"
  else if c = Char.ofNat 10 then "\\n"
  else if c = Char.ofNat 13 then "\\r"
  else if c = Char.ofNat 9 then "\\t"
  else if c = Char.ofNat 8 then "\\b"
  else if c = Char.ofNat 12 then "\\f"
  else if c.toNat < 32 || 127 <= c.toNat then
    if c.toNat < 65536 then "\\u" ++ hex4 c.toNat
    else
      "\\u" ++ hex4 (55296 + (c.toNat - 65536) / 1024) ++
      "\\u" ++ hex4 (56320 + (c.toNat - 65536) % 1024)
  else String.singleton c

/-- Concatenation of the escapes of each character, in order. -/
def concatMapChars (f : Char → String) : List Char → String
  | [] => ""
  | c :: cs => f c ++ concatMapChars f cs

/-- JSON string literal for `s`, as `json.dumps` renders it. -/
def encodeJsonString (s : String) : String :=
  "\"" ++ concatMapChars escapeJsonChar s.data ++ "\""

/-- Characters that `json.dumps` emits unchanged inside a string literal:
printable ASCII other than the quote and the backslash. -/
def plainJsonChar (c : Char) : Bool :=
  32 ≤ c.toNat && c.toNat ≤ 126 && c ≠ Char.ofNat 34 && c ≠ Char.ofNat 92

mutual

/-- `json.dumps` with default separators `", "` and `": "`. -/
def jsonDumps : Jval → String
  | Jval.null => "null"
  | Jval.bool b => cond b "true" "false"
  | Jval.num n => toString n
  | Jval.str s => encodeJsonString s
  | Jval.arr elems => "[" ++ jsonDumpsElems elems ++ "]"
  | Jval.obj fields => "\x7b" ++ jsonDumpsFields fields ++ "\x7d"

/-- Comma-joined renderings of array elements. -/
def jsonDumpsElems : List Jval → String
  | [] => ""
  | [v] => jsonDumps v
  | v :: rest => jsonDumps v ++ ", " ++ jsonDumpsElems (rest)

/-- Comma-joined `"key": value` renderings of object fields. -/
def jsonDumpsFields : List (String × Jval) → String
  | [] => ""
  | [(k, v)] => encodeJsonString k ++ ": " ++ jsonDumps v
  | (k, v) :: rest => encodeJsonString k ++ ": " ++ jsonDumps v ++ ", " ++ jsonDumpsFields rest

end

/-- The two governance exceptions of `exceptions.py`.
`actionDenied` models `ActionDenied(policy_name, message, suggestions)`
(raised for both `deny` and `terminate`); `actionPendingApproval` models
`ActionPendingApproval(approval_id, policy_name, timeout_seconds)`. -/
inductive AWError where
  | actionDenied (policy_name message suggestions : Jval)
  | actionPendingApproval (approval_id policy_name timeout_seconds : Jval)

/-- `ActionDenied.__init__`: stores `policy_name` and `message` verbatim and
normalizes `suggestions` through `suggestions or []`. -/
def mkActionDenied (policy_name message suggestions : Jval) : AWError :=
  AWError.actionDenied policy_name message
    (if pyTruthy suggestions then suggestions else Jval.arr [])

/-- `ActionPendingApproval.__init__`: stores all three fields verbatim. -/
def mkActionPendingApproval (approval_id policy_name timeout_seconds : Jval) : AWError :=
  AWError.actionPendingApproval approval_id policy_name timeout_seconds

/-- `Session._handle_verdict`: reads `verdict` (defaulting to `"allow"`),
raises `ActionDenied` on `"deny"` and `"terminate"` (with default messages
`"Action denied"` / `"Session terminated"`), `ActionPendingApproval` on
`"approve"`, and returns normally otherwise. -/
def handle_verdict (verdict : Dict) : Except AWError Unit :=
  match (dget verdict "verdict").getD (Jval.str "allow") with
  | Jval.str "deny" =>
    Except.error (mkActionDenied
      ((dget verdict "policy_name").getD (Jval.str ""))
      ((dget verdict "message").getD (Jval.str "Action denied"))
      ((dget verdict "suggestions").getD (Jval.arr [])))
  | Jval.str "approve" =>
    Except.error (mkActionPendingApproval
      ((dget verdict "approval_id").getD (Jval.str ""))
      ((dget verdict "policy_name").getD (Jval.str ""))
      ((dget verdict "timeout_seconds").getD (Jval.num 0)))
  | Jval.str "terminate" =>
    Except.error (mkActionDenied
      ((dget verdict "policy_name").getD (Jval.str ""))
      ((dget verdict "message").getD (Jval.str "Session terminated"))
      ((dget verdict "suggestions").getD (Jval.arr [])))
  | _ => Except.ok ()

/-- `Session.__init__` state: identity, metadata and the running context
counters (`_cost`, `_action_count`, `_started_at`). -/
structure Session where
  session_id : String
  agent_id : String
  agent_version : String
  metadata : List (String × String)
  cost : Rat
  action_count : Nat
  started_at : Option Nat
  deriving DecidableEq

/-- `Session.__init__`: fresh counters, unset start time. The random
`session_id` is passed in (uuid generation is an external effect). -/
def Session.create (session_id agent_id agent_version : String)
    (metadata : List (String × String)) : Session :=
  { session_id := session_id
    agent_id := agent_id
    agent_version := agent_version
    metadata := metadata
    cost := 0
    action_count := 0
    started_at := none }

/-- Body of `POST /v1/sessions/start`. -/
structure StartRequest where
  session_id : String
  agent_id : String
  agent_version : String
  metadata : List (String × String)
  deriving DecidableEq

/-- `Session.start`: records the start time and builds the registration body. -/
def Session.start (s : Session) (now : Nat) : Session × StartRequest :=
  ({ s with started_at := some now },
   { session_id := s.session_id
     agent_id := s.agent_id
     agent_version := s.agent_version
     metadata := s.metadata })

/-- `int(time.time() - self._started_at) if self._started_at else 0`. -/
def Session.durationAt (s : Session) (now : Nat) : Nat :=
  match s.started_at with
  | some t => now - t
  | none => 0

/-- The `action` object of an evaluation request body. -/
structure ActionBody where
  type : String
  name : String
  params_json : String
  target : String
  deriving DecidableEq

/-- The `context` object of an evaluation request body. -/
structure ContextBody where
  session_cost : Rat
  session_action_count : Nat
  session_duration_seconds : Nat
  deriving DecidableEq

/-- Body of `POST /v1/events/evaluate`, as built by `Session._evaluate`. -/
structure EvalRequest where
  session_id : String
  agent_id : String
  agent_version : String
  action : ActionBody
  context : ContextBody
  metadata : List (String × String)
  deriving DecidableEq

/-- `Session._evaluate` up to the network call: increments `_action_count`
first, then builds the request body from the updated state (`params or {}`
JSON-encoded, `target or ""`). Returns the mutated session and the body
handed to `_post`. -/
def Session.evaluate (s : Session) (now : Nat) (action_type name : String)
    (params : Option (List (String × Jval))) (target : Option String) :
    Session × EvalRequest :=
  let s' := { s with action_count := s.action_count + 1 }
  (s',
   { session_id := s.session_id
     agent_id := s.agent_id
     agent_version := s.agent_version
     action :=
       { type := action_type
         name := name
         params_json := jsonDumps (Jval.obj (params.getD []))
         target := target.getD "" }
     context :=
       { session_cost := s.cost
         session_action_count := s'.action_count
         session_duration_seconds := s.durationAt now }
     metadata := s.metadata })

/-- A transport-level failure of `AgentWarden._post` (network or HTTP error). -/
structure TransportError where
  message : String
  deriving DecidableEq

/-- A caller-supplied unit of work (`execute=`): run once against the world
`σ`, it either raises `ε` or returns `α`. -/
structure Callable (σ ε α : Type) where
  run : σ → σ × Except ε α

/-- What a governed action method call produces for its caller. -/
inductive Outcome (ε α : Type) where
  | transportError (e : TransportError)
  | governance (e : AWError)
  | callerRaise (e : ε)
  | value (a : Option α)

/-- Full observable effect of one governed action method call: the request
body sent on the wire, the session afterwards, the world afterwards, and
the outcome surfaced to the caller. -/
structure ActionResult (σ ε α : Type) where
  request : EvalRequest
  session : Session
  world : σ
  outcome : Outcome ε α

/-- The protocol shared by all four action methods:
`verdict = await self._evaluate(...)`; `self._handle_verdict(verdict)`;
`if execute: return await self._run_callable(execute)`; `return None`.
A transport error surfaces after the counter increment (the increment is
inside `_evaluate`, before `_post` resolves). -/
def Session.actionFlow {σ ε α : Type} (s : Session) (now : Nat)
    (action_type name : String) (params : Option (List (String × Jval)))
    (target : Option String) (execute : Option (Callable σ ε α))
    (transport : EvalRequest → Except TransportError Dict) (w : σ) :
    ActionResult σ ε α :=
  let p := s.evaluate now action_type name params target
  let wo : σ × Outcome ε α :=
    match transport p.2 with
    | Except.error te => (w, Outcome.transportError te)
    | Except.ok resp =>
      match handle_verdict resp with
      | Except.error ge => (w, Outcome.governance ge)
      | Except.ok _ =>
        match execute with
        | none => (w, Outcome.value none)
        | some c =>
          let r := c.run w
          match r.2 with
          | Except.error e => (r.1, Outcome.callerRaise e)
          | Except.ok a => (r.1, Outcome.value (some a))
  ⟨p.2, p.1, wo.1, wo.2⟩

/-- `Session.tool`: action type `"tool.call"`, caller-given name/params/target. -/
def Session.tool {σ ε α : Type} (s : Session) (now : Nat) (name : String)
    (params : Option (List (String × Jval))) (target : Option String)
    (execute : Option (Callable σ ε α))
    (transport : EvalRequest → Except TransportError Dict) (w : σ) :
    ActionResult σ ε α :=
  s.actionFlow now "tool.call" name params target execute transport w

/-- `Session.api_call`: action type `"api.request"`, caller-given
name/params/target. -/
def Session.api_call {σ ε α : Type} (s : Session) (now : Nat) (name : String)
    (params : Option (List (String × Jval))) (target : Option String)
    (execute : Option (Callable σ ε α))
    (transport : EvalRequest → Except TransportError Dict) (w : σ) :
    ActionResult σ ε α :=
  s.actionFlow now "api.request" name params target execute transport w

/-- `Session.db_query`: fixed type and name `"db.query"`, params
`{"query": query}`, caller-given target. -/
def Session.db_query {σ ε α : Type} (s : Session) (now : Nat) (query : String)
    (target : Option String) (execute : Option (Callable σ ε α))
    (transport : EvalRequest → Except TransportError Dict) (w : σ) :
    ActionResult σ ε α :=
  s.actionFlow now "db.query" "db.query" (some [("query", Jval.str query)])
    target execute transport w

/-- `Session.chat`: type `"llm.chat"`, name `"llm.chat.<model>"`, params
`{"model": model}`, no target. The `messages` argument is accepted but not
sent for evaluation, exactly as in the source. -/
def Session.chat {σ ε α : Type} (s : Session) (now : Nat) (model : String)
    (messages : List Jval) (execute : Option (Callable σ ε α))
    (transport : EvalRequest → Except TransportError Dict) (w : σ) :
    ActionResult σ ε α :=
  let _ := messages
  s.actionFlow now "llm.chat" ("llm.chat." ++ model)
    (some [("model", Jval.str model)]) none execute transport w

/-- One governed evaluation call, for driving a session through a sequence
of action methods. -/
structure CallSpec where
  now : Nat
  action_type : String
  name : String
  params : Option (List (String × Jval))
  target : Option String

/-- The successive `/v1/events/evaluate` bodies sent when a session is
driven through a list of calls in order (each call feeds the session state
left by the previous one, as `self._action_count` does). -/
def evalTrace (s : Session) : List CallSpec → List EvalRequest
  | [] => []
  | c :: cs =>
    let p := s.evaluate c.now c.action_type c.name c.params c.target
    p.2 :: evalTrace p.1 cs

/-- What a synchronous invocation of a unit of work produced: it raised, it
returned a plain value, or it returned an awaitable object
(`inspect.isawaitable(result)`). -/
inductive SyncResult (σ ε α : Type) where
  | raised (e : ε)
  | value (a : α)
  | awaitable (suspend : σ → σ × Except ε α)

/-- A caller-supplied unit of work as `Session._run_callable` sees it:
either a coroutine function (`inspect.iscoroutinefunction(fn)` is true, and
awaiting `fn()` runs `run`), or a plain callable whose synchronous
invocation yields a `SyncResult`. -/
inductive Work (σ ε α : Type) where
  | coro (run : σ → σ × Except ε α)
  | sync (call : σ → σ × SyncResult σ ε α)

/-- `Session._run_callable`: a coroutine function is invoked and awaited;
otherwise the callable is invoked synchronously and, if the result is
awaitable, that result is awaited, else it is returned as-is. Nothing is
caught: a raise at any stage is the adapter's own outcome. -/
def run_callable {σ ε α : Type} (fn : Work σ ε α) (w : σ) : σ × Except ε α :=
  match fn with
  | Work.coro run => run w
  | Work.sync call =>
    let r := call w
    match r.2 with
    | SyncResult.raised e => (r.1, Except.error e)
    | SyncResult.value a => (r.1, Except.ok a)
    | SyncResult.awaitable suspend => suspend r.1

/-- The Execution Adapter as §4.4 of the spec words it: "if the work item
is recognizably a suspending callable, invoke it and suspend until it
resolves; otherwise invoke it synchronously and, if that synchronous call
itself yields something further awaitable, suspend on that too", with any
exception raised by the work item propagating unmodified. -/
def specExecutionAdapter {σ ε α : Type} (fn : Work σ ε α) (w : σ) :
    σ × Except ε α :=
  match fn with
  | Work.coro run => run w
  | Work.sync call =>
    match call w with
    | (w', SyncResult.awaitable suspend) => suspend w'
    | (w', SyncResult.value a) => (w', Except.ok a)
    | (w', SyncResult.raised e) => (w', Except.error e)

/-- Teardown semantics of `AgentWarden.session` (`client.py`):
`await session.start()`, then `try: yield session finally: await
session.end()` driven by `async with`. The session body's outcome and the
outcomes of the two lifecycle calls are passed in; the result records
whether `end()` was attempted and which outcome reaches the caller. When
the `finally` clause itself raises, Python propagates that exception in
place of the in-flight one. -/
def clientSessionCtx {ε α : Type} (startResult : Except ε Unit)
    (body : Except ε α) (endResult : Except ε Unit) : Bool × Except ε α :=
  match startResult with
  | Except.error e => (false, Except.error e)
  | Except.ok _ =>
    match endResult with
    | Except.error e2 => (true, Except.error e2)
    | Except.ok _ => (true, body)

/-- The `governed` decorator (`decorators.py`): its wrapper only re-enters
`warden.session(...)` around the caller's function, so its teardown
semantics are exactly those of the client's session context manager. -/
def governedCall {ε α : Type} (startResult : Except ε Unit)
    (body : Except ε α) (endResult : Except ε Unit) : Bool × Except ε α :=
  clientSessionCtx startResult body endResult

/-! ## General lemmas about the embedding -/

/-- The request body an action method sends is exactly what `_evaluate`
builds, whatever the transport and the verdict then do. -/
theorem actionFlow_request {σ ε α : Type} (s : Session) (now : Nat)
    (action_type name : String) (params : Option (List (String × Jval)))
    (target : Option String) (execute : Option (Callable σ ε α))
    (transport : EvalRequest → Except TransportError Dict) (w : σ) :
    (s.actionFlow now action_type name params target execute transport w).request =
      (s.evaluate now action_type name params target).2 := rfl

/-- Every action method leaves the session with the counter incremented,
whatever the transport and the verdict then do. -/
theorem actionFlow_session {σ ε α : Type} (s : Session) (now : Nat)
    (action_type name : String) (params : Option (List (String × Jval)))
    (target : Option String) (execute : Option (Callable σ ε α))
    (transport : EvalRequest → Except TransportError Dict) (w : σ) :
    (s.actionFlow now action_type name params target execute transport w).session =
      { s with action_count := s.action_count + 1 } := rfl

/-- The `suggestions or []` normalization is the identity on lists. -/
theorem truthy_arr_normalize (sg : List Jval) :
    (if pyTruthy (Jval.arr sg) then Jval.arr sg else Jval.arr []) = Jval.arr sg := by
  cases sg <;> simp [pyTruthy]

/-- Fusing a leading literal concatenation. -/
theorem lit_fuse (a b c : String) (h : a ++ b = c) (x : String) :
    a ++ (b ++ x) = c ++ x := by
  rw [← String.append_assoc, h]

/-- Characters accepted by `plainJsonChar` escape to themselves. -/
theorem escapeJsonChar_plain (c : Char) (h : plainJsonChar c = true) :
    escapeJsonChar c = String.singleton c := by
  unfold plainJsonChar at h
  simp only [Bool.and_eq_true, decide_eq_true_eq] at h
  obtain ⟨⟨⟨h1, h2⟩, h3⟩, h4⟩ := h
  unfold escapeJsonChar
  rw [if_neg h3, if_neg h4,
    if_neg (by intro hc; rw [hc] at h1; exact absurd h1 (by decide)),
    if_neg (by intro hc; rw [hc] at h1; exact absurd h1 (by decide)),
    if_neg (by intro hc; rw [hc] at h1; exact absurd h1 (by decide)),
    if_neg (by intro hc; rw [hc] at h1; exact absurd h1 (by decide)),
    if_neg (by intro hc; rw [hc] at h1; exact absurd h1 (by decide)),
    if_neg (by simp only [Bool.or_eq_true, decide_eq_true_eq]; omega)]

/-- Escaping a list of plain characters is the identity. -/
theorem concatMapChars_plain (l : List Char) (h : l.all plainJsonChar = true) :
    concatMapChars escapeJsonChar l = String.mk l := by
  induction l with
  | nil => rfl
  | cons c cs ih =>
    simp only [List.all_cons, Bool.and_eq_true] at h
    show escapeJsonChar c ++ concatMapChars escapeJsonChar cs = String.mk (c :: cs)
    rw [escapeJsonChar_plain c h.1, ih h.2]
    rfl

/-- A string of plain characters is JSON-encoded by wrapping it in quotes. -/
theorem encodeJsonString_plain (s : String) (h : s.data.all plainJsonChar = true) :
    encodeJsonString s = "\"" ++ s ++ "\"" := by
  unfold encodeJsonString
  rw [concatMapChars_plain s.data h]

/-- When the verdict interpreter raises, no supplied work runs: the world
is untouched and the governance error is the outcome. -/
theorem actionFlow_governance {σ ε α : Type} (s : Session) (now : Nat)
    (action_type name : String) (params : Option (List (String × Jval)))
    (target : Option String) (execute : Option (Callable σ ε α))
    (resp : Dict) (ge : AWError) (w : σ)
    (hhv : handle_verdict resp = Except.error ge) :
    (s.actionFlow now action_type name params target execute
        (fun _ => Except.ok resp) w).world = w ∧
    (s.actionFlow now action_type name params target execute
        (fun _ => Except.ok resp) w).outcome = Outcome.governance ge := by
  unfold Session.actionFlow
  simp [hhv]

/-- When the verdict interpreter returns normally and work is supplied, it
runs once: the world advances by one application of the callable, and the
outcome is its returned value or its raised exception. -/
theorem actionFlow_allow_some {σ ε α : Type} (s : Session) (now : Nat)
    (action_type name : String) (params : Option (List (String × Jval)))
    (target : Option String) (c : Callable σ ε α)
    (resp : Dict) (w : σ)
    (hhv : handle_verdict resp = Except.ok ()) :
    (s.actionFlow now action_type name params target (some c)
        (fun _ => Except.ok resp) w).world = (c.run w).1 ∧
    (∀ a, (c.run w).2 = Except.ok a →
      (s.actionFlow now action_type name params target (some c)
          (fun _ => Except.ok resp) w).outcome = Outcome.value (some a)) ∧
    (∀ e, (c.run w).2 = Except.error e →
      (s.actionFlow now action_type name params target (some c)
          (fun _ => Except.ok resp) w).outcome = Outcome.callerRaise e) := by
  unfold Session.actionFlow
  refine ⟨?_, ?_, ?_⟩
  · simp only [hhv]
    cases hr : (c.run w).2 <;> simp [hr]
  · intro a ha; simp [hhv, ha]
  · intro e he; simp [hhv, he]

/-- When the verdict interpreter returns normally and no work is supplied,
the method returns `None` and the world is untouched. -/
theorem actionFlow_allow_none {σ ε α : Type} (s : Session) (now : Nat)
    (action_type name : String) (params : Option (List (String × Jval)))
    (target : Option String) (resp : Dict) (w : σ)
    (hhv : handle_verdict resp = Except.ok ()) :
    (s.actionFlow now action_type name params target
        (none : Option (Callable σ ε α)) (fun _ => Except.ok resp) w).world = w ∧
    (s.actionFlow now action_type name params target
        (none : Option (Callable σ ε α)) (fun _ => Except.ok resp) w).outcome =
      Outcome.value none := by
  unfold Session.actionFlow
  simp [hhv]

/-- The interpreter's fail-open default: any verdict value other than the
three recognized string tags falls through to the normal return. -/
theorem handle_verdict_ok_of_unrecognized (resp : Dict)
    (h : ∀ t : String, (dget resp "verdict").getD (Jval.str "allow") = Jval.str t →
      t ≠ "deny" ∧ t ≠ "approve" ∧ t ≠ "terminate") :
    handle_verdict resp = Except.ok () := by
  unfold handle_verdict
  split
  next heq => exact absurd rfl (h "deny" heq).1
  next heq => exact absurd rfl (h "approve" heq).2.1
  next heq => exact absurd rfl (h "terminate" heq).2.2
  next => rfl

/-! ## The claims -/

/-- C1, corrected: the N-th evaluation request carries
`session_action_count` equal to N (not N-1): `_action_count` is
incremented before the request body is built, so the first call already
reports count 1. Stated for a session with any starting counter value:
the i-th (0-based) request of a call sequence reports
`action_count + i + 1`. -/
theorem C1_nth_request_count (s : Session) (calls : List CallSpec) (i : Nat)
    (h : i < (evalTrace s calls).length) :
    ((evalTrace s calls).get ⟨i, h⟩).context.session_action_count =
      s.action_count + i + 1 := by
  induction calls generalizing s i with
  | nil => simp [evalTrace] at h
  | cons c cs ih =>
    cases i with
    | zero => rfl
    | succ n =>
      have h' : n < (evalTrace
          (s.evaluate c.now c.action_type c.name c.params c.target).1 cs).length := by
        have hlen : (evalTrace s (c :: cs)).length = (evalTrace
            (s.evaluate c.now c.action_type c.name c.params c.target).1 cs).length + 1 := by
          simp [evalTrace]
        omega
      have hrec := ih (s.evaluate c.now c.action_type c.name c.params c.target).1 n h'
      have hget : (evalTrace s (c :: cs)).get ⟨n + 1, h⟩ =
          (evalTrace (s.evaluate c.now c.action_type c.name c.params c.target).1 cs).get
            ⟨n, h'⟩ := rfl
      have hs : (s.evaluate c.now c.action_type c.name c.params c.target).1.action_count =
          s.action_count + 1 := rfl
      rw [hget, hrec, hs]
      omega

/-- C1 witness: a fresh started session driven through two calls reports
count 2 in the second request. -/
theorem C1_nth_request_count_witness :
    ((evalTrace ((Session.create "ses_1" "support-bot" "v1" []).start 100).1
        [⟨100, "tool.call", "alpha", none, none⟩,
         ⟨101, "tool.call", "beta", none, none⟩]).get
      ⟨1, by simp [evalTrace]⟩).context.session_action_count = 2 :=
  C1_nth_request_count _ _ 1 _

/-- C1 counterexample: the very first evaluation request of a freshly
started session carries `session_action_count` 1, not 0 as claimed. -/
theorem C1_counterexample :
    (((Session.create "ses_1" "support-bot" "v1" []).start 100).1.evaluate 100
        "tool.call" "github.merge_pr" none none).2.context.session_action_count = 1 ∧
    (1 : Nat) ≠ 0 :=
  ⟨rfl, by decide⟩

/-- C2, amended: after a successful `start()`, `end()` is always attempted
during teardown regardless of whether the body raised; but a transport
failure inside that `end()` call propagates and replaces the original
in-flight exception (the `finally` clause re-raises over it); only when
`end()` succeeds does the primary outcome reach the caller. The `governed`
decorator has exactly the same teardown semantics. -/
theorem C2_teardown_semantics (ε α : Type) (body : Except ε α)
    (endResult : Except ε Unit) :
    (clientSessionCtx (Except.ok ()) body endResult).1 = true ∧
    (∀ e2, endResult = Except.error e2 →
      (clientSessionCtx (Except.ok ()) body endResult).2 = Except.error e2) ∧
    (endResult = Except.ok () →
      (clientSessionCtx (Except.ok ()) body endResult).2 = body) ∧
    governedCall (Except.ok ()) body endResult =
      clientSessionCtx (Except.ok ()) body endResult := by
  refine ⟨?_, ?_, ?_, rfl⟩
  · cases endResult <;> rfl
  · intro e2 he; subst he; rfl
  · intro he; subst he; rfl

/-- C2 witness: with an in-flight exception and a failing `end()`, `end()`
was attempted and its failure is what the caller receives. -/
theorem C2_teardown_semantics_witness :
    (clientSessionCtx (Except.ok ()) (Except.error "primary" : Except String Nat)
        (Except.error "end-transport-failure")).1 = true ∧
    (clientSessionCtx (Except.ok ()) (Except.error "primary" : Except String Nat)
        (Except.error "end-transport-failure")).2 =
      Except.error "end-transport-failure" :=
  ⟨(C2_teardown_semantics String Nat (Except.error "primary")
      (Except.error "end-transport-failure")).1,
   (C2_teardown_semantics String Nat (Except.error "primary")
      (Except.error "end-transport-failure")).2.1 "end-transport-failure" rfl⟩

/-- C3, confirmed: a response whose `verdict` field is missing or holds
anything other than "deny", "approve" or "terminate" is classified as
allow: the interpreter raises nothing, and a supplied unit of work is
executed (the world advances by one application of the callable). -/
theorem C3_fail_open (σ ε α : Type) (resp : Dict)
    (h : ∀ t : String, (dget resp "verdict").getD (Jval.str "allow") = Jval.str t →
      t ≠ "deny" ∧ t ≠ "approve" ∧ t ≠ "terminate") :
    handle_verdict resp = Except.ok () ∧
    ∀ (s : Session) (now : Nat) (name : String)
      (params : Option (List (String × Jval))) (target : Option String)
      (c : Callable σ ε α) (w : σ),
      (s.tool now name params target (some c)
          (fun _ => Except.ok resp) w).world = (c.run w).1 := by
  have hok : handle_verdict resp = Except.ok () :=
    handle_verdict_ok_of_unrecognized resp h
  exact ⟨hok, fun s now name params target c w =>
    (actionFlow_allow_some s now "tool.call" name params target c resp w hok).1⟩

/-- C3 witness: a response with no `verdict` key at all allows the action
and the supplied work runs (a counter world advances from 0 to 1). -/
theorem C3_fail_open_witness :
    handle_verdict [] = Except.ok () ∧
    ((Session.create "ses_1" "support-bot" "v1" []).tool 7 "zendesk.reply" none none
        (some (Callable.mk (fun (n : Nat) => (n + 1, (Except.ok 42 : Except Unit Nat)))))
        (fun _ => Except.ok ([] : Dict)) 0).world = 1 := by
  have h := C3_fail_open Nat Unit Nat []
    (by
      intro t ht
      have ht' : "allow" = t := by injection ht
      subst ht'
      exact ⟨by decide, by decide, by decide⟩)
  exact ⟨h.1, h.2 (Session.create "ses_1" "support-bot" "v1" []) 7 "zendesk.reply"
    none none (Callable.mk (fun (n : Nat) => (n + 1, Except.ok 42))) 0⟩

/-- C4, confirmed: for all four action methods, a response with verdict
"deny" or "terminate" never executes the supplied work (the world is
untouched) and raises a single `ActionDenied` carrying exactly the
`policy_name`, `message` and `suggestions` fields of the response. -/
theorem C4_deny_never_executes (σ ε α : Type) (resp : Dict) (pn m : Jval)
    (sg : List Jval)
    (hv : dget resp "verdict" = some (Jval.str "deny") ∨
      dget resp "verdict" = some (Jval.str "terminate"))
    (hp : dget resp "policy_name" = some pn)
    (hm : dget resp "message" = some m)
    (hs : dget resp "suggestions" = some (Jval.arr sg)) :
    handle_verdict resp = Except.error (AWError.actionDenied pn m (Jval.arr sg)) ∧
    ∀ (s : Session) (now : Nat) (name query model : String)
      (params : Option (List (String × Jval))) (target : Option String)
      (c : Callable σ ε α) (w : σ) (messages : List Jval),
      ((s.tool now name params target (some c) (fun _ => Except.ok resp) w).world = w ∧
        (s.tool now name params target (some c) (fun _ => Except.ok resp) w).outcome =
          Outcome.governance (AWError.actionDenied pn m (Jval.arr sg))) ∧
      ((s.api_call now name params target (some c) (fun _ => Except.ok resp) w).world = w ∧
        (s.api_call now name params target (some c) (fun _ => Except.ok resp) w).outcome =
          Outcome.governance (AWError.actionDenied pn m (Jval.arr sg))) ∧
      ((s.db_query now query target (some c) (fun _ => Except.ok resp) w).world = w ∧
        (s.db_query now query target (some c) (fun _ => Except.ok resp) w).outcome =
          Outcome.governance (AWError.actionDenied pn m (Jval.arr sg))) ∧
      ((s.chat now model messages (some c) (fun _ => Except.ok resp) w).world = w ∧
        (s.chat now model messages (some c) (fun _ => Except.ok resp) w).outcome =
          Outcome.governance (AWError.actionDenied pn m (Jval.arr sg))) := by
  have herr : handle_verdict resp =
      Except.error (AWError.actionDenied pn m (Jval.arr sg)) := by
    rcases hv with hv | hv <;>
      simp only [handle_verdict, hv, hp, hm, hs, Option.getD_some, mkActionDenied,
        truthy_arr_normalize]
  refine ⟨herr, fun s now name query model params target c w messages => ?_⟩
  exact ⟨actionFlow_governance s now "tool.call" name params target (some c) resp _ w herr,
    actionFlow_governance s now "api.request" name params target (some c) resp _ w herr,
    actionFlow_governance s now "db.query" "db.query"
      (some [("query", Jval.str query)]) target (some c) resp _ w herr,
    actionFlow_governance s now "llm.chat" ("llm.chat." ++ model)
      (some [("model", Jval.str model)]) none (some c) resp _ w herr⟩

/-- C4 witness: a concrete `deny` response blocks a `tool` call, leaves the
world untouched and surfaces the response's policy, message and
suggestions. -/
theorem C4_deny_never_executes_witness :
    handle_verdict [("verdict", Jval.str "deny"),
        ("policy_name", Jval.str "no-prod-deletes"),
        ("message", Jval.str "blocked"),
        ("suggestions", Jval.arr [Jval.str "use staging"])] =
      Except.error (AWError.actionDenied (Jval.str "no-prod-deletes")
        (Jval.str "blocked") (Jval.arr [Jval.str "use staging"])) ∧
    ((Session.create "ses_1" "support-bot" "v1" []).tool 7 "db.drop_table" none none
        (some (Callable.mk (fun (n : Nat) => (n + 1, (Except.ok 42 : Except Unit Nat)))))
        (fun _ => Except.ok [("verdict", Jval.str "deny"),
          ("policy_name", Jval.str "no-prod-deletes"),
          ("message", Jval.str "blocked"),
          ("suggestions", Jval.arr [Jval.str "use staging"])]) 0).world = 0 := by
  have h := C4_deny_never_executes Nat Unit Nat
    [("verdict", Jval.str "deny"),
     ("policy_name", Jval.str "no-prod-deletes"),
     ("message", Jval.str "blocked"),
     ("suggestions", Jval.arr [Jval.str "use staging"])]
    (Jval.str "no-prod-deletes") (Jval.str "blocked") [Jval.str "use staging"]
    (Or.inl rfl) rfl rfl rfl
  exact ⟨h.1, ((h.2 (Session.create "ses_1" "support-bot" "v1" []) 7 "db.drop_table"
    "q" "m" none none (Callable.mk (fun (n : Nat) => (n + 1, Except.ok 42))) 0 []).1).1⟩

/-- C5, confirmed: for all four action methods, a response with verdict
"approve" never executes the supplied work and raises a single
`ActionPendingApproval` — a constructor distinct from `ActionDenied` —
carrying exactly the `approval_id`, `policy_name` and `timeout_seconds`
fields of the response. -/
theorem C5_approve_pending (σ ε α : Type) (resp : Dict) (aid pn ts : Jval)
    (hv : dget resp "verdict" = some (Jval.str "approve"))
    (ha : dget resp "approval_id" = some aid)
    (hp : dget resp "policy_name" = some pn)
    (ht : dget resp "timeout_seconds" = some ts) :
    handle_verdict resp = Except.error (AWError.actionPendingApproval aid pn ts) ∧
    (∀ p q r : Jval, AWError.actionPendingApproval aid pn ts ≠
      AWError.actionDenied p q r) ∧
    ∀ (s : Session) (now : Nat) (name query model : String)
      (params : Option (List (String × Jval))) (target : Option String)
      (c : Callable σ ε α) (w : σ) (messages : List Jval),
      ((s.tool now name params target (some c) (fun _ => Except.ok resp) w).world = w ∧
        (s.tool now name params target (some c) (fun _ => Except.ok resp) w).outcome =
          Outcome.governance (AWError.actionPendingApproval aid pn ts)) ∧
      ((s.api_call now name params target (some c) (fun _ => Except.ok resp) w).world = w ∧
        (s.api_call now name params target (some c) (fun _ => Except.ok resp) w).outcome =
          Outcome.governance (AWError.actionPendingApproval aid pn ts)) ∧
      ((s.db_query now query target (some c) (fun _ => Except.ok resp) w).world = w ∧
        (s.db_query now query target (some c) (fun _ => Except.ok resp) w).outcome =
          Outcome.governance (AWError.actionPendingApproval aid pn ts)) ∧
      ((s.chat now model messages (some c) (fun _ => Except.ok resp) w).world = w ∧
        (s.chat now model messages (some c) (fun _ => Except.ok resp) w).outcome =
          Outcome.governance (AWError.actionPendingApproval aid pn ts)) := by
  have herr : handle_verdict resp =
      Except.error (AWError.actionPendingApproval aid pn ts) := by
    simp only [handle_verdict, hv, ha, hp, ht, Option.getD_some, mkActionPendingApproval]
  refine ⟨herr, fun p q r hne => AWError.noConfusion hne,
    fun s now name query model params target c w messages => ?_⟩
  exact ⟨actionFlow_governance s now "tool.call" name params target (some c) resp _ w herr,
    actionFlow_governance s now "api.request" name params target (some c) resp _ w herr,
    actionFlow_governance s now "db.query" "db.query"
      (some [("query", Jval.str query)]) target (some c) resp _ w herr,
    actionFlow_governance s now "llm.chat" ("llm.chat." ++ model)
      (some [("model", Jval.str model)]) none (some c) resp _ w herr⟩

/-- C5 witness: a concrete `approve` response blocks a `tool` call, leaves
the world untouched and surfaces the response's approval fields. -/
theorem C5_approve_pending_witness :
    handle_verdict [("verdict", Jval.str "approve"),
        ("approval_id", Jval.str "apr_9"),
        ("policy_name", Jval.str "human-review"),
        ("timeout_seconds", Jval.num 300)] =
      Except.error (AWError.actionPendingApproval (Jval.str "apr_9")
        (Jval.str "human-review") (Jval.num 300)) ∧
    ((Session.create "ses_1" "support-bot" "v1" []).tool 7 "github.merge_pr" none none
        (some (Callable.mk (fun (n : Nat) => (n + 1, (Except.ok 42 : Except Unit Nat)))))
        (fun _ => Except.ok [("verdict", Jval.str "approve"),
          ("approval_id", Jval.str "apr_9"),
          ("policy_name", Jval.str "human-review"),
          ("timeout_seconds", Jval.num 300)]) 0).world = 0 := by
  have h := C5_approve_pending Nat Unit Nat
    [("verdict", Jval.str "approve"),
     ("approval_id", Jval.str "apr_9"),
     ("policy_name", Jval.str "human-review"),
     ("timeout_seconds", Jval.num 300)]
    (Jval.str "apr_9") (Jval.str "human-review") (Jval.num 300) rfl rfl rfl rfl
  exact ⟨h.1, ((h.2.2 (Session.create "ses_1" "support-bot" "v1" []) 7 "github.merge_pr"
    "q" "m" none none (Callable.mk (fun (n : Nat) => (n + 1, Except.ok 42))) 0 []).1).1⟩

/-- C6, confirmed: for all four action methods, on verdict "allow" a
supplied unit of work runs exactly once (the world advances by one
application) and its value is returned unchanged; with no work supplied
the method returns `None` and the world is untouched. -/
theorem C6_allow_executes_once (σ ε α : Type) (resp : Dict)
    (hv : dget resp "verdict" = some (Jval.str "allow")) :
    handle_verdict resp = Except.ok () ∧
    ∀ (s : Session) (now : Nat) (name query model : String)
      (params : Option (List (String × Jval))) (target : Option String)
      (c : Callable σ ε α) (w : σ) (a : α) (messages : List Jval),
      ((c.run w).2 = Except.ok a →
        ((s.tool now name params target (some c) (fun _ => Except.ok resp) w).world =
            (c.run w).1 ∧
          (s.tool now name params target (some c) (fun _ => Except.ok resp) w).outcome =
            Outcome.value (some a)) ∧
        ((s.api_call now name params target (some c) (fun _ => Except.ok resp) w).world =
            (c.run w).1 ∧
          (s.api_call now name params target (some c) (fun _ => Except.ok resp) w).outcome =
            Outcome.value (some a)) ∧
        ((s.db_query now query target (some c) (fun _ => Except.ok resp) w).world =
            (c.run w).1 ∧
          (s.db_query now query target (some c) (fun _ => Except.ok resp) w).outcome =
            Outcome.value (some a)) ∧
        ((s.chat now model messages (some c) (fun _ => Except.ok resp) w).world =
            (c.run w).1 ∧
          (s.chat now model messages (some c) (fun _ => Except.ok resp) w).outcome =
            Outcome.value (some a))) ∧
      (((s.tool now name params target (none : Option (Callable σ ε α))
          (fun _ => Except.ok resp) w).world = w ∧
        (s.tool now name params target (none : Option (Callable σ ε α))
          (fun _ => Except.ok resp) w).outcome = Outcome.value none) ∧
       ((s.api_call now name params target (none : Option (Callable σ ε α))
          (fun _ => Except.ok resp) w).world = w ∧
        (s.api_call now name params target (none : Option (Callable σ ε α))
          (fun _ => Except.ok resp) w).outcome = Outcome.value none) ∧
       ((s.db_query now query target (none : Option (Callable σ ε α))
          (fun _ => Except.ok resp) w).world = w ∧
        (s.db_query now query target (none : Option (Callable σ ε α))
          (fun _ => Except.ok resp) w).outcome = Outcome.value none) ∧
       ((s.chat now model messages (none : Option (Callable σ ε α))
          (fun _ => Except.ok resp) w).world = w ∧
        (s.chat now model messages (none : Option (Callable σ ε α))
          (fun _ => Except.ok resp) w).outcome = Outcome.value none)) := by
  have hok : handle_verdict resp = Except.ok () :=
    handle_verdict_ok_of_unrecognized resp (by
      intro t ht
      rw [hv, Option.getD_some] at ht
      have ht' : "allow" = t := by injection ht
      subst ht'
      exact ⟨by decide, by decide, by decide⟩)
  refine ⟨hok, fun s now name query model params target c w a messages => ⟨fun hra => ?_, ?_⟩⟩
  · exact ⟨⟨(actionFlow_allow_some s now "tool.call" name params target c resp w hok).1,
      (actionFlow_allow_some s now "tool.call" name params target c resp w hok).2.1 a hra⟩,
      ⟨(actionFlow_allow_some s now "api.request" name params target c resp w hok).1,
      (actionFlow_allow_some s now "api.request" name params target c resp w hok).2.1 a hra⟩,
      ⟨(actionFlow_allow_some s now "db.query" "db.query"
          (some [("query", Jval.str query)]) target c resp w hok).1,
      (actionFlow_allow_some s now "db.query" "db.query"
          (some [("query", Jval.str query)]) target c resp w hok).2.1 a hra⟩,
      ⟨(actionFlow_allow_some s now "llm.chat" ("llm.chat." ++ model)
          (some [("model", Jval.str model)]) none c resp w hok).1,
      (actionFlow_allow_some s now "llm.chat" ("llm.chat." ++ model)
          (some [("model", Jval.str model)]) none c resp w hok).2.1 a hra⟩⟩
  · exact ⟨actionFlow_allow_none s now "tool.call" name params target resp w hok,
      actionFlow_allow_none s now "api.request" name params target resp w hok,
      actionFlow_allow_none s now "db.query" "db.query"
        (some [("query", Jval.str query)]) target resp w hok,
      actionFlow_allow_none s now "llm.chat" ("llm.chat." ++ model)
        (some [("model", Jval.str model)]) none resp w hok⟩

/-- C6 witness: a concrete `allow` response lets a `chat` call run its
work once and pass its value through; `tool` and `chat` calls with no work
return `None`. -/
theorem C6_allow_executes_once_witness :
    ((Session.create "ses_1" "support-bot" "v1" []).chat 7 "gpt-4o" []
        (some (Callable.mk (fun (n : Nat) => (n + 1, (Except.ok 42 : Except Unit Nat)))))
        (fun _ => Except.ok [("verdict", Jval.str "allow")]) 0).world = 1 ∧
    ((Session.create "ses_1" "support-bot" "v1" []).chat 7 "gpt-4o" []
        (some (Callable.mk (fun (n : Nat) => (n + 1, (Except.ok 42 : Except Unit Nat)))))
        (fun _ => Except.ok [("verdict", Jval.str "allow")]) 0).outcome =
      Outcome.value (some 42) ∧
    ((Session.create "ses_1" "support-bot" "v1" []).tool 7 "t" none none
        (none : Option (Callable Nat Unit Nat))
        (fun _ => Except.ok [("verdict", Jval.str "allow")]) 0).outcome =
      Outcome.value none ∧
    ((Session.create "ses_1" "support-bot" "v1" []).chat 7 "gpt-4o" []
        (none : Option (Callable Nat Unit Nat))
        (fun _ => Except.ok [("verdict", Jval.str "allow")]) 0).outcome =
      Outcome.value none := by
  have h := (C6_allow_executes_once Nat Unit Nat [("verdict", Jval.str "allow")] rfl).2
    (Session.create "ses_1" "support-bot" "v1" []) 7 "t" "q" "gpt-4o" none none
    (Callable.mk (fun (n : Nat) => (n + 1, Except.ok 42))) 0 42 []
  exact ⟨(h.1 rfl).2.2.2.1, (h.1 rfl).2.2.2.2, h.2.1.2, h.2.2.2.2.2⟩

/-- C7, confirmed: every call to any of the four action methods leaves
`action_count` at exactly one more than before — whatever the transport
does (it is quantified, including failing transports, since the increment
happens before the network call resolves) and whatever the verdict is. -/
theorem C7_action_count_unconditional (σ ε α : Type) (s : Session) (now : Nat)
    (name query model : String) (params : Option (List (String × Jval)))
    (target : Option String) (execute : Option (Callable σ ε α))
    (transport : EvalRequest → Except TransportError Dict) (w : σ)
    (messages : List Jval) :
    (s.tool now name params target execute transport w).session.action_count =
      s.action_count + 1 ∧
    (s.api_call now name params target execute transport w).session.action_count =
      s.action_count + 1 ∧
    (s.db_query now query target execute transport w).session.action_count =
      s.action_count + 1 ∧
    (s.chat now model messages execute transport w).session.action_count =
      s.action_count + 1 :=
  ⟨rfl, rfl, rfl, rfl⟩

/-- C8, confirmed: `_run_callable` is exactly the spec's two-level
Execution Adapter, and the work item's own outcome — value or raise —
always surfaces unmodified: a coroutine function is invoked and awaited as
it stands; a synchronous raise, a synchronous plain value, and an awaited
returned awaitable each become the adapter's own result. -/
theorem C8_execution_adapter (σ ε α : Type) (fn : Work σ ε α) (w : σ) :
    run_callable fn w = specExecutionAdapter fn w ∧
    (∀ run, fn = Work.coro run → run_callable fn w = run w) ∧
    (∀ call w' e, fn = Work.sync call → call w = (w', SyncResult.raised e) →
      run_callable fn w = (w', Except.error e)) ∧
    (∀ call w' a, fn = Work.sync call → call w = (w', SyncResult.value a) →
      run_callable fn w = (w', Except.ok a)) ∧
    (∀ call w' suspend, fn = Work.sync call →
      call w = (w', SyncResult.awaitable suspend) →
      run_callable fn w = suspend w') := by
  refine ⟨?_, ?_, ?_, ?_, ?_⟩
  · cases fn with
    | coro run => rfl
    | sync call =>
      cases hc : call w with
      | mk w' r => cases r <;> simp [run_callable, specExecutionAdapter, hc]
  · intro run hfn; subst hfn; rfl
  · intro call w' e hfn hc; subst hfn; simp [run_callable, hc]
  · intro call w' a hfn hc; subst hfn; simp [run_callable, hc]
  · intro call w' suspend hfn hc; subst hfn; simp [run_callable, hc]

/-- C8 witness: a synchronous unit of work returning a plain value resolves
to that value with one world step, and agrees with the spec adapter. -/
theorem C8_execution_adapter_witness :
    run_callable
        (Work.sync (fun n => (n + 1, SyncResult.value 5)) : Work Nat Unit Nat) 0 =
      specExecutionAdapter (Work.sync (fun n => (n + 1, SyncResult.value 5))) 0 ∧
    run_callable
        (Work.sync (fun n => (n + 1, SyncResult.value 5)) : Work Nat Unit Nat) 0 =
      (1, Except.ok 5) := by
  have h := C8_execution_adapter Nat Unit Nat
    (Work.sync (fun n => (n + 1, SyncResult.value 5))) 0
  exact ⟨h.1, h.2.2.2.1 (fun n => (n + 1, SyncResult.value 5)) 1 5 rfl rfl⟩

/-- A one-field object of plain strings renders as the expected JSON
object literal. -/
theorem jsonDumps_single_str_plain (k v : String)
    (hk : k.data.all plainJsonChar = true) (hv2 : v.data.all plainJsonChar = true) :
    jsonDumps (Jval.obj [(k, Jval.str v)]) =
      "\x7b\"" ++ k ++ "\": \"" ++ v ++ "\"\x7d" := by
  have e1 : jsonDumps (Jval.obj [(k, Jval.str v)]) =
      "\x7b" ++ (encodeJsonString k ++ ": " ++ encodeJsonString v) ++ "\x7d" := by
    simp [jsonDumps, jsonDumpsFields]
  rw [e1, encodeJsonString_plain k hk, encodeJsonString_plain v hv2]
  simp only [String.append_assoc]
  rw [lit_fuse "\x7b" "\"" "\x7b\"" rfl, lit_fuse "\"" ": " "\": " rfl,
    lit_fuse "\": " "\"" "\": \"" rfl]
  rfl

/-- C9, confirmed: every evaluation request body has the fixed wire shape
(session identity, action with type/name/params_json/target, context with
cost/count/duration, metadata); `db_query` submits the fixed literal name
`db.query` with params the JSON object with the single key `query`;
`chat` submits `llm.chat.<model>` with params the JSON object with the
single key `model` and the empty target; omitted params encode as the
empty JSON object and an omitted target as the empty string. Stated for
query/model strings of plain printable characters so the JSON literals are
explicit. -/
theorem C9_wire_shape (σ ε α : Type) (s : Session) (now : Nat)
    (name query model : String) (target : Option String)
    (execute : Option (Callable σ ε α))
    (transport : EvalRequest → Except TransportError Dict) (w : σ)
    (messages : List Jval)
    (hq : query.data.all plainJsonChar = true)
    (hm : model.data.all plainJsonChar = true) :
    (s.db_query now query target execute transport w).request =
      { session_id := s.session_id
        agent_id := s.agent_id
        agent_version := s.agent_version
        action :=
          { type := "db.query"
            name := "db.query"
            params_json := "\x7b\"query\": \"" ++ query ++ "\"\x7d"
            target := target.getD "" }
        context :=
          { session_cost := s.cost
            session_action_count := s.action_count + 1
            session_duration_seconds := s.durationAt now }
        metadata := s.metadata } ∧
    (s.chat now model messages execute transport w).request =
      { session_id := s.session_id
        agent_id := s.agent_id
        agent_version := s.agent_version
        action :=
          { type := "llm.chat"
            name := "llm.chat." ++ model
            params_json := "\x7b\"model\": \"" ++ model ++ "\"\x7d"
            target := "" }
        context :=
          { session_cost := s.cost
            session_action_count := s.action_count + 1
            session_duration_seconds := s.durationAt now }
        metadata := s.metadata } ∧
    (s.tool now name none none execute transport w).request.action.params_json =
      "\x7b\x7d" ∧
    (s.tool now name none none execute transport w).request.action.target = "" := by
  refine ⟨?_, ?_, ?_, rfl⟩
  · show (s.evaluate now "db.query" "db.query"
        (some [("query", Jval.str query)]) target).2 = _
    unfold Session.evaluate
    rw [show (some [("query", Jval.str query)]).getD [] = [("query", Jval.str query)]
        from rfl,
      jsonDumps_single_str_plain "query" query (by decide) hq]
    rfl
  · show (s.evaluate now "llm.chat" ("llm.chat." ++ model)
        (some [("model", Jval.str model)]) none).2 = _
    unfold Session.evaluate
    rw [show (some [("model", Jval.str model)]).getD [] = [("model", Jval.str model)]
        from rfl,
      jsonDumps_single_str_plain "model" model (by decide) hm]
    rfl
  · show jsonDumps (Jval.obj ((none : Option (List (String × Jval))).getD [])) = _
    simp [jsonDumps, jsonDumpsFields]

/-- C9 witness: concrete `db_query` and `chat` calls produce exactly the
documented bodies. -/
theorem C9_wire_shape_witness :
    ((Session.create "ses_1" "support-bot" "v1" [("team", "billing")]).db_query 7
        "SELECT 1" none (none : Option (Callable Nat Unit Nat))
        (fun _ => Except.ok []) 0).request =
      { session_id := "ses_1"
        agent_id := "support-bot"
        agent_version := "v1"
        action :=
          { type := "db.query"
            name := "db.query"
            params_json := "\x7b\"query\": \"SELECT 1\"\x7d"
            target := "" }
        context :=
          { session_cost := 0
            session_action_count := 1
            session_duration_seconds := 0 }
        metadata := [("team", "billing")] } ∧
    ((Session.create "ses_1" "support-bot" "v1" []).chat 7 "gpt-4o" []
        (none : Option (Callable Nat Unit Nat))
        (fun _ => Except.ok []) 0).request.action.params_json =
      "\x7b\"model\": \"gpt-4o\"\x7d" := by
  have h1 := C9_wire_shape Nat Unit Nat
    (Session.create "ses_1" "support-bot" "v1" [("team", "billing")]) 7
    "t" "SELECT 1" "gpt-4o" none none (fun _ => Except.ok []) 0 []
    (by decide) (by decide)
  have h2 := C9_wire_shape Nat Unit Nat
    (Session.create "ses_1" "support-bot" "v1" []) 7
    "t" "SELECT 1" "gpt-4o" none none (fun _ => Except.ok []) 0 []
    (by decide) (by decide)
  refine ⟨?_, ?_⟩
  · exact h1.1.trans rfl
  · rw [h2.2.1]
    rfl

/-- C10, confirmed: for every non-allow verdict with the outcome-specific
fields missing, the raised exception is still constructed, with the
defaults: empty string for `policy_name` and `approval_id`, empty list for
`suggestions`, 0 for `timeout_seconds`, and the messages "Action denied"
for deny and "Session terminated" for terminate. -/
theorem C10_default_fields (resp : Dict)
    (hp : dget resp "policy_name" = none)
    (hm : dget resp "message" = none)
    (hs : dget resp "suggestions" = none)
    (ha : dget resp "approval_id" = none)
    (ht : dget resp "timeout_seconds" = none) :
    (dget resp "verdict" = some (Jval.str "deny") →
      handle_verdict resp = Except.error (AWError.actionDenied (Jval.str "")
        (Jval.str "Action denied") (Jval.arr []))) ∧
    (dget resp "verdict" = some (Jval.str "approve") →
      handle_verdict resp = Except.error (AWError.actionPendingApproval (Jval.str "")
        (Jval.str "") (Jval.num 0))) ∧
    (dget resp "verdict" = some (Jval.str "terminate") →
      handle_verdict resp = Except.error (AWError.actionDenied (Jval.str "")
        (Jval.str "Session terminated") (Jval.arr []))) := by
  refine ⟨fun hv => ?_, fun hv => ?_, fun hv => ?_⟩ <;>
    simp [handle_verdict, hv, hp, hm, hs, ha, ht, mkActionDenied,
      mkActionPendingApproval, pyTruthy]

/-- C10 witness: a bare deny response raises the all-defaults denial. -/
theorem C10_default_fields_witness :
    handle_verdict [("verdict", Jval.str "deny")] =
      Except.error (AWError.actionDenied (Jval.str "") (Jval.str "Action denied")
        (Jval.arr [])) :=
  (C10_default_fields [("verdict", Jval.str "deny")] rfl rfl rfl rfl rfl).1 rfl

/-- C2 counterexample: the primary in-flight exception does not propagate
when `end()` fails; the caller sees the `end()` transport failure
instead. -/
theorem C2_counterexample :
    (clientSessionCtx (Except.ok ()) (Except.error "primary" : Except String Nat)
        (Except.error "end-transport-failure")).2 ≠ Except.error "primary" ∧
    (clientSessionCtx (Except.ok ()) (Except.error "primary" : Except String Nat)
        (Except.error "end-transport-failure")).1 = true := by
  refine ⟨?_, rfl⟩
  intro hcontra
  have hmsg : ("end-transport-failure" : String) = "primary" := by
    injection hcontra
  exact absurd hmsg (by decide)

end AgentWarden
